import Mathlib

/-!
Verification of the order-lifecycle and payment-reconciliation core of an
e-commerce backend.  The Lean definitions below are a shallow embedding of
the JavaScript controllers: the document store (products, orders, users,
notifications) is explicit state, each HTTP controller becomes a function
from the state and a request to a new state paired with an `Except` result
(a thrown JS error that reaches the express error middleware is `.error`),
and `Date.now ()` is a `now : Nat` parameter (milliseconds).  Identifiers
are `Nat`; JS numbers that may go negative under `$inc` are `Int`.
-/

namespace Shop

/-- A nested add-on sub-document of a product (`addOnItems` entries). -/
structure AddOn where
  id : Nat
  name : String
  inStock : Bool
  countInStock : Int
  deriving Repr, DecidableEq

/-- A catalog product (`models/Product`): `countInStock`, `inStock`
and the nested `addOnItems`. -/
structure Product where
  id : Nat
  name : String
  inStock : Bool
  countInStock : Int
  addOnItems : List AddOn
  deriving Repr, DecidableEq

/-- A line item of an order: `product` is the referenced id, which may be a
primary product id or a nested add-on id. -/
structure OrderItem where
  product : Nat
  name : String
  qty : Int
  price : Int
  deriving Repr, DecidableEq

/-- One entry of an order's append-only `trackingHistory`. -/
structure TrackingEvent where
  status : String
  message : String
  location : Option String
  timestamp : Option Nat
  updatedBy : Option Nat
  deriving Repr, DecidableEq

/-- The `paymentResult` provider receipt stored on an order. -/
structure PaymentResult where
  id : String
  status : String
  update_time : Nat
  razorpay_order_id : Option String
  payment_method : Option String
  deriving Repr, DecidableEq

/-- An order document (`models/Order`). -/
structure Order where
  id : Nat
  user : Nat
  orderItems : List OrderItem
  shippingAddress : String
  paymentMethod : String
  itemsPrice : Int
  taxPrice : Int
  shippingPrice : Int
  totalPrice : Int
  isPaid : Bool
  paidAt : Option Nat
  paymentResult : Option PaymentResult
  isDelivered : Bool
  deliveredAt : Option Nat
  trackingStatus : String
  trackingHistory : List TrackingEvent
  returnStatus : String
  returnReason : Option String
  returnAdminNote : Option String
  createdAt : Nat
  deriving Repr, DecidableEq

/-- A user; `orderAlerts` / `lowStockAlerts` model
`notificationPreferences?.orderAlerts` etc., `none` when the preference
object or flag is absent. -/
structure User where
  id : Nat
  role : String
  orderAlerts : Option Bool
  lowStockAlerts : Option Bool
  deriving Repr, DecidableEq

/-- A notification document created by `Notification.create`. -/
structure Notification where
  user : Nat
  title : String
  message : String
  ntype : String
  link : String
  read : Bool
  relatedOrder : Option Nat
  deriving Repr, DecidableEq

/-- The document store: products, orders, users, notifications. -/
structure DB where
  products : List Product
  orders : List Order
  users : List User
  notifications : List Notification
  deriving Repr, DecidableEq

/-- An error thrown by a controller and turned into an HTTP error response
by the express error middleware (`res.status(...)` + `throw`). -/
structure ApiError where
  status : Nat
  msg : String
  deriving Repr, DecidableEq

/-- `Product.findById` — catalog lookup by primary product id. -/
def findProductById (products : List Product) (pid : Nat) : Option Product :=
  products.find? (fun p => p.id == pid)

/-- `Product.findOne({ "addOnItems._id": pid })` — first product whose
`addOnItems` contains an entry with id `pid`. -/
def findAddOnHost (products : List Product) (pid : Nat) : Option Product :=
  products.find? (fun p => p.addOnItems.any (fun a => a.id == pid))

/-- `product.addOnItems.id(pid)` — the nested add-on entry with id `pid`. -/
def getAddOn (p : Product) (pid : Nat) : Option AddOn :=
  p.addOnItems.find? (fun a => a.id == pid)

/-- Update the first element satisfying `pred` (MongoDB `findOneAndUpdate`
and the positional `$` operator both touch only the first match). -/
def updateFirst (pred : α → Bool) (f : α → α) : List α → List α
  | [] => []
  | x :: xs => if pred x then f x :: xs else x :: updateFirst pred f xs

/-- The stock-adjustment step shared by the order controllers
(creation decrement, cancel/abandon restore): `$inc` `countInStock` by
`delta` on the primary product with id `pid`; if no such product, `$inc`
the nested `addOnItems.$.countInStock` of the first product holding an
add-on with that id; silently a no-op when neither matches. -/
def adjustStock (products : List Product) (pid : Nat) (delta : Int) : List Product :=
  if (findProductById products pid).isSome then
    products.map (fun p => if p.id == pid then { p with countInStock := p.countInStock + delta } else p)
  else
    updateFirst (fun p => p.addOnItems.any (fun a => a.id == pid))
      (fun p =>
        let addOns := updateFirst (fun a => a.id == pid)
          (fun a => { a with countInStock := a.countInStock + delta }) p.addOnItems
        { p with addOnItems := addOns })
      products

/-- The stock-decrement loop of `addOrderItems` (lines 124-137):
`$inc: { countInStock: -item.qty }`, falling back to the add-on entry. -/
def decrementStockForItems (products : List Product) (items : List OrderItem) : List Product :=
  items.foldl (fun acc it => adjustStock acc it.product (-it.qty)) products

/-- The stock-restore loop shared by `cancelOrder` (lines 257-268) and
`abandonOrder` (lines 482-493): `$inc: { countInStock: item.qty }`. -/
def restoreStockForItems (products : List Product) (items : List OrderItem) : List Product :=
  items.foldl (fun acc it => adjustStock acc it.product it.qty) products

/-- The per-item stock-sufficiency check of `addOrderItems` (lines 84-107):
resolve as primary product (reject 400 unless `inStock` and
`countInStock >= qty`), else as an add-on entry (same check), else 404. -/
def checkStockItem (products : List Product) (item : OrderItem) : Except ApiError Unit :=
  match findProductById products item.product with
  | some product =>
      if !product.inStock || product.countInStock < item.qty then
        .error ⟨400, "Insufficient stock for product: " ++ product.name⟩
      else
        .ok ()
  | none =>
      match findAddOnHost products item.product with
      | some host =>
          match getAddOn host item.product with
          | some addOn =>
              if !addOn.inStock || addOn.countInStock < item.qty then
                .error ⟨400, "Insufficient stock for product: " ++ addOn.name⟩
              else
                .ok ()
          | none =>
              .error ⟨400, "Insufficient stock for product: Unknown Add-on"⟩
      | none =>
          .error ⟨404, "Product not found: " ++ item.name⟩

/-- The whole pre-creation check loop: first failing item aborts. -/
def checkStockAll (products : List Product) : List OrderItem → Except ApiError Unit
  | [] => .ok ()
  | item :: rest =>
      match checkStockItem products item with
      | .error e => .error e
      | .ok () => checkStockAll products rest

/-- A parsed webhook request body `{ event, payload }`, with the fields of
`payload.payment.entity` the handler reads. -/
structure WebhookBody where
  event : String
  paymentEntityId : String
  paymentEntityOrderId : String
  notesOrderId : Nat
  deriving Repr, DecidableEq

/-- The process environment and external collaborators of the controllers:
gateway configuration, the HMAC-SHA256 primitive (abstracted as an opaque
keyed function, since only equality of digests matters to the controllers),
the JSON serialization of a webhook body, the mock verifier, and whether
`Notification.create` currently fails (to study error absorption). -/
structure Env where
  razorpayConfigured : Bool
  keySecret : String
  webhookSecret : Option String
  hmacSha256 : String → String → String
  stringifyBody : WebhookBody → String
  mockMode : Bool
  mockVerifySuccess : String → String → Option String → Bool
  mockVerifyPaymentId : String → String → Option String → String
  notifyFails : Bool

/-- `Notification.create`: appends the document, or throws when creation
fails; a thrown error carries the store state at the throw point (JS side
effects before the throw persist). -/
def notificationCreate (env : Env) (db : DB) (n : Notification) :
    Except (String × DB) DB :=
  if env.notifyFails then
    .error ("Notification create failed", db)
  else
    .ok { db with notifications := db.notifications ++ [n] }

/-- Sequential `Notification.create` calls (a JS `for` loop of creates). -/
def createAll (env : Env) (db : DB) : List Notification → Except (String × DB) DB
  | [] => .ok db
  | n :: rest =>
      match notificationCreate env db n with
      | .error e => .error e
      | .ok db1 => createAll env db1 rest

/-- `User.find({ role: admin })`. -/
def findAdmins (db : DB) : List User :=
  db.users.filter (fun u => u.role == "admin")

/-- The "Order Placed!" notification to the ordering user. -/
def newOrderUserNote (order : Order) (userId : Nat) : Notification :=
  { user := userId
    title := "Order Placed!"
    message := "Your order #" ++ toString order.id ++ " has been placed successfully."
    ntype := "order", link := "/orders", read := false
    relatedOrder := some order.id }

/-- The "New Order Received!" admin fan-out, gated on
`notificationPreferences?.orderAlerts !== false`. -/
def newOrderAdminNotes (admins : List User) (order : Order) : List Notification :=
  (admins.filter (fun a => a.orderAlerts != some false)).map (fun a =>
    { user := a.id
      title := "New Order Received!"
      message := "Order #" ++ toString order.id ++ " totaling " ++ toString order.totalPrice ++ " has been placed."
      ntype := "order", link := "/admin/order/" ++ toString order.id
      read := false, relatedOrder := some order.id })

/-- The low-stock pass of `sendNewOrderNotifications`: for each line item
resolving to a primary product with `countInStock <= 5`, one alert per
admin whose `lowStockAlerts` preference is not explicitly disabled. -/
def lowStockAdminNotes (products : List Product) (admins : List User)
    (items : List OrderItem) : List Notification :=
  items.foldl (fun acc item =>
    match findProductById products item.product with
    | some product =>
        if product.countInStock ≤ 5 then
          acc ++ (admins.filter (fun a => a.lowStockAlerts != some false)).map (fun a =>
            { user := a.id
              title := "Low Stock Alert!"
              message := "Product " ++ product.name ++ " is low in stock (" ++ toString product.countInStock ++ " remaining)."
              ntype := "tracking", link := "/admin/product/" ++ toString product.id ++ "/edit"
              read := false, relatedOrder := none })
        else acc
    | none => acc) []

/-- The body of `sendNewOrderNotifications` before its `catch` (order.js
lines 11-56): user notification, admin fan-out gated on
`notificationPreferences?.orderAlerts !== false`, then the low-stock pass
over the order's items (primary products at `countInStock <= 5`, admins
gated on `lowStockAlerts !== false`). -/
def sendNewOrderNotificationsBody (env : Env) (db : DB) (order : Order)
    (userId : Nat) : Except (String × DB) DB :=
  match createAll env db (newOrderUserNote order userId :: newOrderAdminNotes (findAdmins db) order) with
  | .error e => .error e
  | .ok db1 =>
      createAll env db1 (lowStockAdminNotes db1.products (findAdmins db) order.orderItems)

/-- `sendNewOrderNotifications` (order.js lines 10-60): the body above
wrapped in `try { ... } catch (error) { console.error(...) }` — a creation
failure is absorbed and the state at the failure point is kept. -/
def sendNewOrderNotifications (env : Env) (db : DB) (order : Order)
    (userId : Nat) : DB :=
  match sendNewOrderNotificationsBody env db order userId with
  | .ok db1 => db1
  | .error (_, db1) => db1

/-- The order-creation request body read by `addOrderItems`. -/
structure CreateOrderReq where
  orderItems : List OrderItem
  shippingAddress : String
  paymentMethod : String
  itemsPrice : Int
  taxPrice : Int
  shippingPrice : Int
  totalPrice : Int
  deriving Repr, DecidableEq

/-- Modelled from the spec: the Order schema defaults (`models/Order.js` is
not under src). A new order starts unpaid and undelivered, with
`trackingStatus` `pending` (§4.4: initial state `pending`, implicit at
creation), an empty `trackingHistory` and `returnStatus` `None` (§3). -/
def newOrderRecord (oid userId : Nat) (req : CreateOrderReq) (now : Nat) : Order :=
  { id := oid
    user := userId
    orderItems := req.orderItems
    shippingAddress := req.shippingAddress
    paymentMethod := req.paymentMethod
    itemsPrice := req.itemsPrice
    taxPrice := req.taxPrice
    shippingPrice := req.shippingPrice
    totalPrice := req.totalPrice
    isPaid := false, paidAt := none, paymentResult := none
    isDelivered := false, deliveredAt := none
    trackingStatus := "pending", trackingHistory := []
    returnStatus := "None", returnReason := none, returnAdminNote := none
    createdAt := now }

/-- `addOrderItems`'s online-gateway test (order.js lines 142-143):
`paymentMethod && (toLowerCase() === online || toLowerCase() === razorpay)`
(an absent/empty payment method is falsy and hence not online, matching the
`Bool` below since the empty string lowercases to itself); `lowerString`
is `toLowerCase`, written over the character list so it reduces in the
kernel. -/
def lowerString (s : String) : String :=
  String.mk (s.data.map Char.toLower)

def isOnlinePayment (paymentMethod : String) : Bool :=
  lowerString paymentMethod == "online" || lowerString paymentMethod == "razorpay"

/-- `addOrderItems` (order.js lines 65-154): reject an empty item list;
run the stock-sufficiency check over every line item; only then persist the
order, decrement stock for every item, and — unless the payment method is
an online gateway — send the new-order notifications immediately. A thrown
error is passed to `next(error)` with no mutation having happened. -/
def addOrderItems (env : Env) (db : DB) (userId : Nat) (req : CreateOrderReq)
    (oid now : Nat) : DB × Except ApiError Order :=
  if req.orderItems.isEmpty then
    (db, .error ⟨400, "No order items"⟩)
  else
    match checkStockAll db.products req.orderItems with
    | .error e => (db, .error e)
    | .ok () =>
        let order := newOrderRecord oid userId req now
        let db1 := { db with orders := db.orders ++ [order] }
        let db2 := { db1 with products := decrementStockForItems db1.products req.orderItems }
        let db3 :=
          if !isOnlinePayment req.paymentMethod then
            sendNewOrderNotifications env db2 order userId
          else db2
        (db3, .ok order)

/-- `Order.findById`. -/
def findOrderById (db : DB) (oid : Nat) : Option Order :=
  db.orders.find? (fun o => o.id == oid)

/-- `order.save()` on an existing document: replace the order with that id. -/
def saveOrder (db : DB) (o : Order) : DB :=
  { db with orders := db.orders.map (fun x => if x.id == o.id then o else x) }

/-- Modelled from the spec: `createPaymentNotification` of
`services/notificationService.js` (not under src). §4.2: it creates one
notification for the user and is best-effort — "errors are caught and
logged, not propagated" — so a creation failure is absorbed. -/
def paymentNote (userId : Nat) (order : Order) (outcome : String) : Notification :=
  { user := userId, title := "Payment " ++ outcome
    message := "Payment " ++ outcome ++ " for order #" ++ toString order.id
    ntype := "order", link := "/orders", read := false
    relatedOrder := some order.id }

/-- See `paymentNote`; absorbing wrapper around the create. -/
def createPaymentNotification (env : Env) (db : DB) (userId : Nat)
    (order : Order) (outcome : String) : DB :=
  match notificationCreate env db (paymentNote userId order outcome) with
  | .ok db1 => db1
  | .error (_, db1) => db1

/-- Modelled from the spec: `createOrderNotification` of
`services/notificationService.js` (not under src). §4.2: one best-effort
notification to the user; failures caught and logged, not propagated. -/
def orderEventNote (userId : Nat) (order : Order) (event : String) : Notification :=
  { user := userId, title := "Order " ++ event
    message := "Order #" ++ toString order.id ++ ": " ++ event
    ntype := "order", link := "/orders", read := false
    relatedOrder := some order.id }

/-- See `orderEventNote`; absorbing wrapper around the create. -/
def createOrderNotification (env : Env) (db : DB) (userId : Nat)
    (order : Order) (event : String) : DB :=
  match notificationCreate env db (orderEventNote userId order event) with
  | .ok db1 => db1
  | .error (_, db1) => db1

/-- The request body of `verifyPayment`. -/
structure VerifyReq where
  razorpay_order_id : String
  razorpay_payment_id : String
  razorpay_signature : Option String
  orderId : Nat
  deriving Repr, DecidableEq

/-- The `(isValid, paymentId)` derivation of `verifyPayment` (payment.js
lines 82-104): in live mode with a signature present, compare the supplied
signature to HMAC-SHA256 over `orderId|paymentId` under the key secret;
otherwise in mock mode defer to the mock verifier (which also overrides the
payment id); otherwise invalid. -/
def verifyPaymentValidity (env : Env) (req : VerifyReq) : Bool × String :=
  if env.razorpayConfigured && req.razorpay_signature.isSome then
    let sign := req.razorpay_order_id ++ "|" ++ req.razorpay_payment_id
    let expectedSign := env.hmacSha256 env.keySecret sign
    (req.razorpay_signature == some expectedSign, req.razorpay_payment_id)
  else if env.mockMode then
    (env.mockVerifySuccess req.razorpay_order_id req.razorpay_payment_id req.razorpay_signature,
     env.mockVerifyPaymentId req.razorpay_order_id req.razorpay_payment_id req.razorpay_signature)
  else
    (false, req.razorpay_payment_id)

/-- The in-place mutation `verifyPayment` applies to a verified order
(payment.js lines 106-124): mark paid, stamp `paymentResult`, push a
`pending` tracking-history entry. -/
def verifiedOrderUpdate (order : Order) (paymentId roid : String) (now : Nat) : Order :=
  { order with
    isPaid := true
    paidAt := some now
    paymentResult := some
      { id := paymentId, status := "completed", update_time := now
        razorpay_order_id := some roid
        payment_method := some "razorpay" }
    trackingHistory := order.trackingHistory ++
      [{ status := "pending"
         message := "Order placed and payment received"
         location := some "Online", timestamp := some now
         updatedBy := none }] }

/-- `verifyPayment` (payment.js lines 73-143): load the order (404 when
absent); derive validity; when valid, mark the order paid, stamp
`paymentResult`, push a `pending` tracking-history entry, save, then send
the deferred new-order notifications plus a payment-success and an
order-created notification to the owning user; when invalid, reject with
400 and leave the store untouched. -/
def verifyPayment (env : Env) (db : DB) (userId : Nat) (req : VerifyReq)
    (now : Nat) : DB × Except ApiError Unit :=
  match findOrderById db req.orderId with
  | none => (db, .error ⟨404, "Order not found"⟩)
  | some order =>
      let v := verifyPaymentValidity env req
      if v.1 then
        let order1 := verifiedOrderUpdate order v.2 req.razorpay_order_id now
        let db1 := saveOrder db order1
        let db2 := sendNewOrderNotifications env db1 order1 userId
        let db3 := createPaymentNotification env db2 order1.user order1 "success"
        let db4 := createOrderNotification env db3 order1.user order1 "order_created"
        (db4, .ok ())
      else
        (db, .error ⟨400, "Invalid payment signature"⟩)

/-- The in-place mutation `handleWebhook` applies to a not-yet-paid order
on `payment.captured` (payment.js lines 174-193): mark paid, stamp
`paymentResult`, set `trackingStatus` to `confirmed`, push a
tracking-history entry. -/
def webhookPaidUpdate (order : Order) (body : WebhookBody) (now : Nat) : Order :=
  { order with
    isPaid := true
    paidAt := some now
    paymentResult := some
      { id := body.paymentEntityId, status := "completed"
        update_time := now
        razorpay_order_id := some body.paymentEntityOrderId
        payment_method := some "razorpay" }
    trackingStatus := "confirmed"
    trackingHistory := order.trackingHistory ++
      [{ status := "confirmed"
         message := "Order confirmed via Webhook"
         location := some "Online", timestamp := some now
         updatedBy := none }] }

/-- `handleWebhook` (payment.js lines 146-214): reject 400 when the webhook
secret or the signature header is missing; recompute HMAC-SHA256 over the
serialized body under the secret and reject 400 on mismatch; on a
`payment.captured` event load the order from the payment's `notes.orderId`
and, only when it exists and is not already paid, mark it paid, set
`trackingStatus` to `confirmed`, push a tracking-history entry and save;
everything else (missing order, already-paid order, other events, among
them `payment.failed`) is acknowledged with no mutation. -/
def handleWebhook (env : Env) (db : DB) (signatureHeader : Option String)
    (body : WebhookBody) (now : Nat) : DB × Except ApiError Unit :=
  match env.webhookSecret, signatureHeader with
  | some secret, some signature =>
      let expectedSignature := env.hmacSha256 secret (env.stringifyBody body)
      if signature != expectedSignature then
        (db, .error ⟨400, "Invalid webhook signature"⟩)
      else if body.event == "payment.captured" then
        match findOrderById db body.notesOrderId with
        | some order =>
            if !order.isPaid then
              (saveOrder db (webhookPaidUpdate order body now), .ok ())
            else
              (db, .ok ())
        | none => (db, .ok ())
      else
        (db, .ok ())
  | _, _ => (db, .error ⟨400, "Signature and secret are required for webhook"⟩)

/-- The in-place mutation `cancelOrder` applies to a cancellable order
(order.js lines 270-290): set `trackingStatus` to `cancelled`, flag the
payment result `refund_pending` when the order was paid (spreading the old
receipt), append a tracking-history entry recording who cancelled. -/
def cancelledOrderUpdate (order : Order) (byUserId : Nat) (now : Nat) : Order :=
  let cancellationMessage :=
    if order.isPaid then "Order cancelled. Refund initiated to original payment source."
    else "Order cancelled by user"
  let paymentResult1 :=
    if order.isPaid then
      some { id := (order.paymentResult.map (fun r => r.id)).getD ""
             status := "refund_pending", update_time := now
             razorpay_order_id := (order.paymentResult.map (fun r => r.razorpay_order_id)).getD none
             payment_method := (order.paymentResult.map (fun r => r.payment_method)).getD none }
    else order.paymentResult
  { order with
    trackingStatus := "cancelled"
    paymentResult := paymentResult1
    trackingHistory := order.trackingHistory ++
      [{ status := "cancelled", message := cancellationMessage
         location := none, timestamp := none, updatedBy := some byUserId }] }

/-- The "Order Cancelled" notification to the order's owner. -/
def cancelUserNote (order : Order) : Notification :=
  { user := order.user, title := "Order Cancelled"
    message := "Your order #" ++ toString order.id ++ " has been cancelled."
    ntype := "order", link := "/track/" ++ toString order.id
    read := false, relatedOrder := some order.id }

/-- The "Order Cancelled by User" admin fan-out, gated on
`notificationPreferences?.orderAlerts !== false`. -/
def cancelAdminNotes (admins : List User) (order : Order) : List Notification :=
  (admins.filter (fun a => a.orderAlerts != some false)).map (fun a =>
    { user := a.id, title := "Order Cancelled by User"
      message := "Order #" ++ toString order.id ++ " has been cancelled by the customer."
      ntype := "order", link := "/admin/order/" ++ toString order.id
      read := false, relatedOrder := some order.id })

/-- `cancelOrder` (order.js lines 242-326): 404 when absent; 401 unless the
caller owns the order or is an admin; 400 when `trackingStatus` is
`delivered`, `shipped` or `cancelled`; otherwise restore stock for every
line item, set `trackingStatus` to `cancelled` (flagging the payment result
`refund_pending` when the order was paid), append a tracking-history entry,
save, and then notify the user and the admins — these `Notification.create`
calls are NOT wrapped in a try/catch, so a creation failure after the save
propagates as an error response. -/
def cancelOrder (env : Env) (db : DB) (user : User) (oid : Nat) (now : Nat) :
    DB × Except ApiError Unit :=
  match findOrderById db oid with
  | none => (db, .error ⟨404, "Order not found"⟩)
  | some order =>
      if order.user != user.id && user.role != "admin" then
        (db, .error ⟨401, "Not authorized to cancel this order"⟩)
      else if order.trackingStatus == "delivered" || order.trackingStatus == "shipped"
          || order.trackingStatus == "cancelled" then
        (db, .error ⟨400, "Cannot cancel order that is " ++ order.trackingStatus⟩)
      else
        let db1 := { db with products := restoreStockForItems db.products order.orderItems }
        let order1 := cancelledOrderUpdate order user.id now
        let db2 := saveOrder db1 order1
        match createAll env db2 (cancelUserNote order :: cancelAdminNotes (findAdmins db2) order) with
        | .ok db3 => (db3, .ok ())
        | .error (m, db3) => (db3, .error ⟨500, m⟩)

/-- The `$set` document built by `updateOrdersStatus` (order.js lines
343-354): `delivered` sets `isDelivered`/`deliveredAt`/`trackingStatus`;
`paid` sets `isPaid`/`paidAt`; one of the five non-terminal tracking states
sets only `trackingStatus`; anything else yields an empty update. -/
structure UpdateData where
  isDelivered : Option Bool
  deliveredAt : Option Nat
  isPaid : Option Bool
  paidAt : Option Nat
  trackingStatus : Option String
  deriving Repr, DecidableEq

/-- The all-`none` (empty) `$set` document. -/
def emptyUpdateData : UpdateData :=
  ⟨none, none, none, none, none⟩

/-- Build the `$set` document from the requested status. -/
def statusUpdateData (status : String) (now : Nat) : UpdateData :=
  if status == "delivered" then
    { emptyUpdateData with
        isDelivered := some true
        deliveredAt := some now
        trackingStatus := some "delivered" }
  else if status == "paid" then
    { emptyUpdateData with isPaid := some true, paidAt := some now }
  else if ["pending", "confirmed", "processing", "shipped", "out_for_delivery"].contains status then
    { emptyUpdateData with trackingStatus := some status }
  else
    emptyUpdateData

/-- Apply a `$set` document to one order. -/
def applyUpdateData (u : UpdateData) (o : Order) : Order :=
  { o with
    isDelivered := u.isDelivered.getD o.isDelivered
    deliveredAt := if u.deliveredAt.isSome then u.deliveredAt else o.deliveredAt
    isPaid := u.isPaid.getD o.isPaid
    paidAt := if u.paidAt.isSome then u.paidAt else o.paidAt
    trackingStatus := u.trackingStatus.getD o.trackingStatus }

/-- `updateOrdersStatus` (order.js lines 334-366): reject 400 on a missing
or empty id list; otherwise `updateMany` the `$set` document over every
order whose id is in the list, answering with `modifiedCount` — the number
of matched documents the update actually changed. -/
def updateOrdersStatus (db : DB) (orderIds : List Nat) (status : String)
    (now : Nat) : DB × Except ApiError Nat :=
  if orderIds.isEmpty then
    (db, .error ⟨400, "No orders selected"⟩)
  else
    let u := statusUpdateData status now
    let modifiedCount :=
      (db.orders.filter (fun o => orderIds.contains o.id && applyUpdateData u o != o)).length
    let newOrders :=
      db.orders.map (fun o => if orderIds.contains o.id then applyUpdateData u o else o)
    ({ db with orders := newOrders }, .ok modifiedCount)

/-- The "New Return Request" admin fan-out of `requestReturn`, gated on
`notificationPreferences?.orderAlerts !== false`. -/
def returnAdminNotes (admins : List User) (order : Order) (reason : String) :
    List Notification :=
  (admins.filter (fun a => a.orderAlerts != some false)).map (fun a =>
    { user := a.id, title := "New Return Request"
      message := "Return requested for Order #" ++ toString order.id ++ ". Reason: " ++ reason
      ntype := "order", link := "/admin/returns"
      read := false, relatedOrder := some order.id })

/-- `requestReturn` (order.js lines 415-474): 404 when absent; 401 unless
the caller owns the order; 400 unless `trackingStatus` is `delivered`;
when `deliveredAt` is set, 400 when `floor(|now - deliveredAt| / 1 day)`
exceeds 7; 400 when `returnStatus` is not `None`; otherwise set
`returnStatus` to `Requested`, record the reason, save, and notify the
admins — these `Notification.create` calls are NOT wrapped in a try/catch,
so a creation failure after the save propagates as an error response. -/
def requestReturn (env : Env) (db : DB) (user : User) (oid : Nat)
    (reason : String) (now : Nat) : DB × Except ApiError Unit :=
  match findOrderById db oid with
  | none => (db, .error ⟨404, "Order not found"⟩)
  | some order =>
      if order.user != user.id then
        (db, .error ⟨401, "Not authorized to request return for this order"⟩)
      else if order.trackingStatus != "delivered" then
        (db, .error ⟨400, "Return can only be requested for delivered orders"⟩)
      else
        let lateCheck : Bool :=
          match order.deliveredAt with
          | some deliveredDate =>
              let diffTime := ((now : Int) - (deliveredDate : Int)).natAbs
              let diffDays := diffTime / (1000 * 60 * 60 * 24)
              decide (diffDays > 7)
          | none => false
        if lateCheck then
          (db, .error ⟨400, "Return request can only be submitted within 7 days of delivery"⟩)
        else if order.returnStatus != "None" then
          (db, .error ⟨400, "Return request already exists for this order"⟩)
        else
          let order1 : Order :=
            { order with returnStatus := "Requested", returnReason := some reason }
          let db1 := saveOrder db order1
          match createAll env db1 (returnAdminNotes (findAdmins db1) order reason) with
          | .ok db2 => (db2, .ok ())
          | .error (m, db2) => (db2, .error ⟨500, m⟩)

/-- `abandonOrder` (order.js lines 476-505): load the order (404 when
absent); restore stock for every line item; `findByIdAndDelete` the order.
The authenticated caller `user` is never consulted, and neither are the
order's owner, payment state or tracking status. -/
def abandonOrder (db : DB) (_user : User) (oid : Nat) : DB × Except ApiError String :=
  match findOrderById db oid with
  | none => (db, .error ⟨404, "Order not found"⟩)
  | some order =>
      let db1 := { db with products := restoreStockForItems db.products order.orderItems }
      let db2 := { db1 with orders := db1.orders.filter (fun o => !(o.id == oid)) }
      (db2, .ok "Order record permanently deleted and stock restored")

/-- `getMyOrders` (order.js lines 220-229): the caller's orders whose
`paymentMethod` is `COD` or which are paid, sorted by `createdAt`
descending (newest first, `sort({ createdAt: -1 })`). -/
def getMyOrders (db : DB) (userId : Nat) : List Order :=
  (db.orders.filter (fun o => o.user == userId && (o.paymentMethod == "COD" || o.isPaid))).insertionSort
    (fun a b => b.createdAt ≤ a.createdAt)

/-! ## Helper lemmas -/

/-- The state a notification-create chain leaves behind, whether or not it
threw (JS side effects before a throw persist). -/
def exceptDB : Except (String × DB) DB → DB
  | .ok d => d
  | .error (_, d) => d

theorem createAll_products (env : Env) :
    ∀ (ns : List Notification) (db : DB),
      (exceptDB (createAll env db ns)).products = db.products := by
  intro ns
  induction ns with
  | nil => intro db; rfl
  | cons n rest ih =>
      intro db
      by_cases h : env.notifyFails
      · simp [createAll, notificationCreate, h, exceptDB]
      · simp only [createAll, notificationCreate, h, if_neg, Bool.false_eq_true, if_false]
        exact ih _

theorem createAll_orders (env : Env) :
    ∀ (ns : List Notification) (db : DB),
      (exceptDB (createAll env db ns)).orders = db.orders := by
  intro ns
  induction ns with
  | nil => intro db; rfl
  | cons n rest ih =>
      intro db
      by_cases h : env.notifyFails
      · simp [createAll, notificationCreate, h, exceptDB]
      · simp only [createAll, notificationCreate, h, if_neg, Bool.false_eq_true, if_false]
        exact ih _

theorem createAll_users (env : Env) :
    ∀ (ns : List Notification) (db : DB),
      (exceptDB (createAll env db ns)).users = db.users := by
  intro ns
  induction ns with
  | nil => intro db; rfl
  | cons n rest ih =>
      intro db
      by_cases h : env.notifyFails
      · simp [createAll, notificationCreate, h, exceptDB]
      · simp only [createAll, notificationCreate, h, if_neg, Bool.false_eq_true, if_false]
        exact ih _

/-- With a healthy notification store the whole chain succeeds and appends
every notification in order. -/
theorem createAll_noFail (env : Env) (h : env.notifyFails = false) :
    ∀ (ns : List Notification) (db : DB),
      createAll env db ns = .ok { db with notifications := db.notifications ++ ns } := by
  intro ns
  induction ns with
  | nil => intro db; simp [createAll]
  | cons n rest ih =>
      intro db
      simp [createAll, notificationCreate, h, ih]

/-- With a broken notification store the first create throws, leaving the
state unchanged. -/
theorem createAll_fails (env : Env) (h : env.notifyFails = true)
    (n : Notification) (ns : List Notification) (db : DB) :
    createAll env db (n :: ns) = .error ("Notification create failed", db) := by
  simp [createAll, notificationCreate, h]

theorem sendNewOrderNotifications_eq_exceptDB (env : Env) (db : DB)
    (order : Order) (userId : Nat) :
    sendNewOrderNotifications env db order userId
      = exceptDB (sendNewOrderNotificationsBody env db order userId) := by
  unfold sendNewOrderNotifications
  cases h : sendNewOrderNotificationsBody env db order userId with
  | ok d => rfl
  | error e => cases e; rfl

theorem sendNewOrderNotifications_products (env : Env) (db : DB)
    (order : Order) (userId : Nat) :
    (sendNewOrderNotifications env db order userId).products = db.products := by
  rw [sendNewOrderNotifications_eq_exceptDB]
  unfold sendNewOrderNotificationsBody
  cases h : createAll env db (newOrderUserNote order userId :: newOrderAdminNotes (findAdmins db) order) with
  | error e =>
      cases e with
      | mk m d =>
          have hp := createAll_products env (newOrderUserNote order userId :: newOrderAdminNotes (findAdmins db) order) db
          rw [h] at hp
          simpa [exceptDB] using hp
  | ok d =>
      have h1 := createAll_products env (newOrderUserNote order userId :: newOrderAdminNotes (findAdmins db) order) db
      rw [h] at h1
      simp only [exceptDB] at h1
      have h2 := createAll_products env (lowStockAdminNotes d.products (findAdmins db) order.orderItems) d
      simpa using h2.trans h1

theorem sendNewOrderNotifications_orders (env : Env) (db : DB)
    (order : Order) (userId : Nat) :
    (sendNewOrderNotifications env db order userId).orders = db.orders := by
  rw [sendNewOrderNotifications_eq_exceptDB]
  unfold sendNewOrderNotificationsBody
  cases h : createAll env db (newOrderUserNote order userId :: newOrderAdminNotes (findAdmins db) order) with
  | error e =>
      cases e with
      | mk m d =>
          have hp := createAll_orders env (newOrderUserNote order userId :: newOrderAdminNotes (findAdmins db) order) db
          rw [h] at hp
          simpa [exceptDB] using hp
  | ok d =>
      have h1 := createAll_orders env (newOrderUserNote order userId :: newOrderAdminNotes (findAdmins db) order) db
      rw [h] at h1
      simp only [exceptDB] at h1
      have h2 := createAll_orders env (lowStockAdminNotes d.products (findAdmins db) order.orderItems) d
      simpa using h2.trans h1

/-- With a healthy notification store, `sendNewOrderNotifications` appends
exactly the user note, the admin fan-out and the low-stock alerts. -/
theorem sendNewOrderNotifications_noFail (env : Env) (db : DB)
    (order : Order) (userId : Nat) (h : env.notifyFails = false) :
    sendNewOrderNotifications env db order userId
      = { db with notifications := db.notifications
            ++ (newOrderUserNote order userId :: newOrderAdminNotes (findAdmins db) order)
            ++ lowStockAdminNotes db.products (findAdmins db) order.orderItems } := by
  rw [sendNewOrderNotifications_eq_exceptDB]
  unfold sendNewOrderNotificationsBody
  simp only [createAll_noFail env h, exceptDB]

theorem findOrderById_eq_some_id {db : DB} {oid : Nat} {o : Order}
    (h : findOrderById db oid = some o) : o.id = oid := by
  have := List.find?_some h
  simpa using this

theorem find_save_aux (oid : Nat) (o1 : Order) (h1 : o1.id = oid) :
    ∀ l : List Order, (l.find? (fun x => x.id == oid)).isSome →
      (l.map (fun x => if x.id == o1.id then o1 else x)).find? (fun x => x.id == oid)
        = some o1 := by
  intro l
  induction l with
  | nil => simp
  | cons x xs ih =>
      intro hs
      by_cases hx : x.id = oid
      · simp [List.find?, hx, h1]
      · have hmap : (if x.id == o1.id then o1 else x) = x := by
          simp [h1, hx]
        simp only [List.map_cons, List.find?, hmap]
        have hpx : (x.id == oid) = false := by simp [hx]
        rw [hpx]
        simp only [List.find?, hpx] at hs
        exact ih (by simpa using hs)

/-- Saving an updated version of a found order makes it the one found. -/
theorem findOrderById_saveOrder {db : DB} {oid : Nat} {o : Order} (o1 : Order)
    (h : findOrderById db oid = some o) (h1 : o1.id = oid) :
    findOrderById (saveOrder db o1) oid = some o1 := by
  unfold findOrderById saveOrder at *
  exact find_save_aux oid o1 h1 db.orders (by rw [h]; rfl)

/-! ## Shared concrete fixtures for witnesses and counterexamples -/

/-- A concrete environment: live gateway configured, a toy stand-in for the
HMAC primitive (the controllers only compare digests for equality), healthy
notification store. -/
def sampleEnv : Env :=
  { razorpayConfigured := true, keySecret := "k", webhookSecret := some "w"
    hmacSha256 := fun key msg => key ++ "#" ++ msg
    stringifyBody := fun b => b.event ++ "/" ++ toString b.notesOrderId
    mockMode := false
    mockVerifySuccess := fun _ _ _ => false
    mockVerifyPaymentId := fun _ pid _ => pid
    notifyFails := false }

/-- `sampleEnv` with a notification store whose creates fail. -/
def sampleEnvNotifyFail : Env := { sampleEnv with notifyFails := true }

def sampleProduct : Product :=
  { id := 1, name := "A", inStock := true, countInStock := 10
    addOnItems := [{ id := 11, name := "addonB", inStock := true, countInStock := 4 }] }

def sampleAdmin : User :=
  { id := 100, role := "admin", orderAlerts := none, lowStockAlerts := none }

def sampleCust : User :=
  { id := 7, role := "customer", orderAlerts := none, lowStockAlerts := none }

def sampleDb : DB :=
  { products := [sampleProduct], orders := [], users := [sampleAdmin, sampleCust]
    notifications := [] }

def sampleReqCOD : CreateOrderReq :=
  { orderItems := [{ product := 1, name := "A", qty := 2, price := 50 }]
    shippingAddress := "addr", paymentMethod := "COD"
    itemsPrice := 100, taxPrice := 0, shippingPrice := 0, totalPrice := 100 }

def sampleReqOnline : CreateOrderReq := { sampleReqCOD with paymentMethod := "Online" }

def sampleReqInsufficient : CreateOrderReq :=
  { sampleReqCOD with orderItems := [{ product := 1, name := "A", qty := 20, price := 50 }] }

/-! ## Claims -/

/-- C1: Order creation is all-or-nothing on the stock check. If any line
item fails the stock-sufficiency check (resolved first as a primary
product, else as an add-on item, a missing product being a 404 error),
the request fails with the store completely untouched — no order document
is created and no product's or add-on's `countInStock` changes. Only when
every line item passes is the order persisted, and then stock is
decremented for every item. -/
theorem addOrderItems_all_or_nothing (env : Env) (db : DB) (userId : Nat)
    (req : CreateOrderReq) (oid now : Nat) :
    (∀ e : ApiError, checkStockAll db.products req.orderItems = .error e →
        addOrderItems env db userId req oid now = (db, .error e))
    ∧ (checkStockAll db.products req.orderItems = .ok () → req.orderItems ≠ [] →
        (addOrderItems env db userId req oid now).2 = .ok (newOrderRecord oid userId req now)
        ∧ (addOrderItems env db userId req oid now).1.orders
            = db.orders ++ [newOrderRecord oid userId req now]
        ∧ (addOrderItems env db userId req oid now).1.products
            = decrementStockForItems db.products req.orderItems) := by
  constructor
  · intro e he
    unfold addOrderItems
    by_cases hE : req.orderItems.isEmpty
    · rw [List.isEmpty_iff] at hE
      rw [hE] at he
      simp [checkStockAll] at he
    · simp only [hE, Bool.false_eq_true, if_false, he]
  · intro hok hne
    unfold addOrderItems
    have hE : req.orderItems.isEmpty = false := by
      simpa [List.isEmpty_iff] using hne
    simp only [hE, Bool.false_eq_true, if_false, hok]
    refine ⟨trivial, ?_, ?_⟩
    · by_cases hOn : isOnlinePayment req.paymentMethod
      · simp [hOn]
      · simp [hOn, sendNewOrderNotifications_orders]
    · by_cases hOn : isOnlinePayment req.paymentMethod
      · simp [hOn]
      · simp [hOn, sendNewOrderNotifications_products]

/-- C1 witness: a request for 20 units of a 10-unit product is rejected and
changes nothing; the same one-line-item request for 2 units is persisted
with the stock decrement applied. -/
theorem addOrderItems_all_or_nothing_witness :
    addOrderItems sampleEnv sampleDb 7 sampleReqInsufficient 500 1000
      = (sampleDb, .error ⟨400, "Insufficient stock for product: A"⟩)
    ∧ (addOrderItems sampleEnv sampleDb 7 sampleReqCOD 500 1000).2
        = .ok (newOrderRecord 500 7 sampleReqCOD 1000)
    ∧ (addOrderItems sampleEnv sampleDb 7 sampleReqCOD 500 1000).1.orders
        = [newOrderRecord 500 7 sampleReqCOD 1000]
    ∧ (addOrderItems sampleEnv sampleDb 7 sampleReqCOD 500 1000).1.products
        = decrementStockForItems sampleDb.products sampleReqCOD.orderItems := by
  refine ⟨?_, ?_, ?_, ?_⟩
  · exact (addOrderItems_all_or_nothing sampleEnv sampleDb 7 sampleReqInsufficient 500 1000).1
      ⟨400, "Insufficient stock for product: A"⟩ (by rfl)
  · exact ((addOrderItems_all_or_nothing sampleEnv sampleDb 7 sampleReqCOD 500 1000).2
      (by rfl) (by decide)).1
  · exact ((addOrderItems_all_or_nothing sampleEnv sampleDb 7 sampleReqCOD 500 1000).2
      (by rfl) (by decide)).2.1
  · exact ((addOrderItems_all_or_nothing sampleEnv sampleDb 7 sampleReqCOD 500 1000).2
      (by rfl) (by decide)).2.2

theorem createPaymentNotification_noFail (env : Env) (db : DB) (uid : Nat)
    (order : Order) (outcome : String) (h : env.notifyFails = false) :
    createPaymentNotification env db uid order outcome
      = { db with notifications := db.notifications ++ [paymentNote uid order outcome] } := by
  simp [createPaymentNotification, notificationCreate, h]

theorem createOrderNotification_noFail (env : Env) (db : DB) (uid : Nat)
    (order : Order) (event : String) (h : env.notifyFails = false) :
    createOrderNotification env db uid order event
      = { db with notifications := db.notifications ++ [orderEventNote uid order event] } := by
  simp [createOrderNotification, notificationCreate, h]

/-- C5: new-order notification dispatch is deferred exactly for online
gateway payment methods. When the payment method is (case-insensitively)
`online` or `razorpay`, order creation creates no notification at all;
when it is not (e.g. cash on delivery), the new-order notifications go out
at creation. Successful client-confirmed payment verification then fires
the deferred new-order notifications together with a payment-success and
an order-created notification to the owning user. -/
theorem notification_dispatch_deferral (env : Env) (db : DB) (userId : Nat)
    (req : CreateOrderReq) (oid now : Nat) :
    (isOnlinePayment req.paymentMethod = true →
        (addOrderItems env db userId req oid now).1.notifications = db.notifications)
    ∧ (isOnlinePayment req.paymentMethod = false → env.notifyFails = false →
        checkStockAll db.products req.orderItems = .ok () → req.orderItems ≠ [] →
        (addOrderItems env db userId req oid now).1.notifications
          = db.notifications
            ++ (newOrderUserNote (newOrderRecord oid userId req now) userId
                  :: newOrderAdminNotes (findAdmins db) (newOrderRecord oid userId req now))
            ++ lowStockAdminNotes (decrementStockForItems db.products req.orderItems)
                 (findAdmins db) req.orderItems)
    ∧ (∀ (vreq : VerifyReq) (order : Order), env.notifyFails = false →
        findOrderById db vreq.orderId = some order →
        (verifyPaymentValidity env vreq).1 = true →
        (verifyPayment env db userId vreq now).1.notifications
          = db.notifications
            ++ (newOrderUserNote
                  (verifiedOrderUpdate order (verifyPaymentValidity env vreq).2 vreq.razorpay_order_id now) userId
                :: newOrderAdminNotes (findAdmins db)
                  (verifiedOrderUpdate order (verifyPaymentValidity env vreq).2 vreq.razorpay_order_id now))
            ++ lowStockAdminNotes db.products (findAdmins db)
                 (verifiedOrderUpdate order (verifyPaymentValidity env vreq).2 vreq.razorpay_order_id now).orderItems
            ++ [paymentNote
                  (verifiedOrderUpdate order (verifyPaymentValidity env vreq).2 vreq.razorpay_order_id now).user
                  (verifiedOrderUpdate order (verifyPaymentValidity env vreq).2 vreq.razorpay_order_id now) "success",
                orderEventNote
                  (verifiedOrderUpdate order (verifyPaymentValidity env vreq).2 vreq.razorpay_order_id now).user
                  (verifiedOrderUpdate order (verifyPaymentValidity env vreq).2 vreq.razorpay_order_id now) "order_created"]) := by
  refine ⟨?_, ?_, ?_⟩
  · intro hOn
    unfold addOrderItems
    by_cases hE : req.orderItems.isEmpty
    · simp [hE]
    · cases hc : checkStockAll db.products req.orderItems with
      | error e => simp [hE, hc]
      | ok u => cases u; simp [hE, hc, hOn]
  · intro hOn hNf hc hne
    unfold addOrderItems
    have hE : req.orderItems.isEmpty = false := by
      simpa [List.isEmpty_iff] using hne
    simp only [hE, Bool.false_eq_true, if_false, hc, hOn, Bool.not_false, if_true]
    rw [sendNewOrderNotifications_noFail _ _ _ _ hNf]
    simp [findAdmins, newOrderRecord]
  · intro vreq order hNf hfind hvalid
    unfold verifyPayment
    rw [hfind]
    simp only [hvalid, if_true]
    rw [sendNewOrderNotifications_noFail _ _ _ _ hNf,
        createPaymentNotification_noFail _ _ _ _ _ hNf,
        createOrderNotification_noFail _ _ _ _ _ hNf]
    simp [saveOrder, findAdmins, List.append_assoc]

/-- C5 witness: an online-payment creation request creates no
notifications; the same request with method COD creates the new-order
notifications immediately; verifying the online order's payment with a
valid signature creates the deferred new-order notifications plus the
payment-success and order-created notes. -/
theorem notification_dispatch_deferral_witness :
    (addOrderItems sampleEnv sampleDb 7 sampleReqOnline 500 1000).1.notifications = []
    ∧ (addOrderItems sampleEnv sampleDb 7 sampleReqCOD 500 1000).1.notifications
        = (newOrderUserNote (newOrderRecord 500 7 sampleReqCOD 1000) 7
            :: newOrderAdminNotes (findAdmins sampleDb) (newOrderRecord 500 7 sampleReqCOD 1000))
          ++ lowStockAdminNotes (decrementStockForItems sampleDb.products sampleReqCOD.orderItems)
               (findAdmins sampleDb) sampleReqCOD.orderItems
    ∧ (verifyPayment sampleEnv
          { sampleDb with orders := [newOrderRecord 500 7 sampleReqOnline 1000] } 7
          { razorpay_order_id := "ro", razorpay_payment_id := "pp"
            razorpay_signature := some "k#ro|pp", orderId := 500 } 2000).1.notifications.length
        = 4 := by
  refine ⟨?_, ?_, ?_⟩
  · exact (notification_dispatch_deferral sampleEnv sampleDb 7 sampleReqOnline 500 1000).1 (by decide)
  · exact (notification_dispatch_deferral sampleEnv sampleDb 7 sampleReqCOD 500 1000).2.1
      (by decide) rfl (by rfl) (by decide)
  · have h := (notification_dispatch_deferral sampleEnv
      { sampleDb with orders := [newOrderRecord 500 7 sampleReqOnline 1000] } 7 sampleReqOnline 500 2000).2.2
      { razorpay_order_id := "ro", razorpay_payment_id := "pp"
        razorpay_signature := some "k#ro|pp", orderId := 500 }
      (newOrderRecord 500 7 sampleReqOnline 1000) rfl (by rfl) (by rfl)
    rw [h]
    rfl

theorem createPaymentNotification_orders (env : Env) (db : DB) (uid : Nat)
    (order : Order) (outcome : String) :
    (createPaymentNotification env db uid order outcome).orders = db.orders := by
  unfold createPaymentNotification notificationCreate
  cases env.notifyFails <;> simp

theorem createOrderNotification_orders (env : Env) (db : DB) (uid : Nat)
    (order : Order) (event : String) :
    (createOrderNotification env db uid order event).orders = db.orders := by
  unfold createOrderNotification notificationCreate
  cases env.notifyFails <;> simp

/-- An already-paid order awaiting nothing: used to probe idempotence. -/
def samplePaidOrder : Order :=
  { newOrderRecord 500 7 sampleReqOnline 900 with isPaid := true }

/-- A verification request whose signature matches `sampleEnv`'s digest of
`ro|pp` under key `k`. -/
def sampleVerifyReq : VerifyReq :=
  { razorpay_order_id := "ro", razorpay_payment_id := "pp"
    razorpay_signature := some "k#ro|pp", orderId := 500 }

/-- C2 counterexample: the claim fails on the code. `verifyPayment` never
consults `isPaid`: replaying a valid client confirmation against an order
already marked paid succeeds again, re-appends the tracking-history entry
(history length goes from 0 to 1 on this already-paid order) and re-fires
the deferred new-order, payment-success and order-created notifications
(four notification documents are created). -/
theorem verifyPayment_not_idempotent_cex :
    samplePaidOrder.isPaid = true
    ∧ (verifyPayment sampleEnv { sampleDb with orders := [samplePaidOrder] } 7
        sampleVerifyReq 2000).2 = .ok ()
    ∧ ((verifyPayment sampleEnv { sampleDb with orders := [samplePaidOrder] } 7
        sampleVerifyReq 2000).1.orders.map (fun o => o.trackingHistory.length)) = [1]
    ∧ (verifyPayment sampleEnv { sampleDb with orders := [samplePaidOrder] } 7
        sampleVerifyReq 2000).1.notifications.length = 4 := by
  exact ⟨rfl, rfl, rfl, rfl⟩

/-- C2 amended: client-confirmed verification is NOT idempotent against the
paid state — it never consults `isPaid`. For any found order, paid or not,
a valid signature reprocesses it: the response is success, the stored order
becomes the freshly-verified update whose tracking history is the old one
with the `pending` payment-received entry re-appended (and the deferred
notifications are re-fired, see C5); only an invalid signature leaves the
store unchanged with a 400 rejection. -/
theorem verifyPayment_reprocesses_paid_order (env : Env) (db : DB)
    (userId : Nat) (req : VerifyReq) (now : Nat) (order : Order)
    (hfind : findOrderById db req.orderId = some order) :
    ((verifyPaymentValidity env req).1 = true →
      (verifyPayment env db userId req now).2 = .ok ()
      ∧ findOrderById (verifyPayment env db userId req now).1 req.orderId
          = some (verifiedOrderUpdate order (verifyPaymentValidity env req).2
              req.razorpay_order_id now)
      ∧ (verifiedOrderUpdate order (verifyPaymentValidity env req).2
          req.razorpay_order_id now).trackingHistory
          = order.trackingHistory
            ++ [{ status := "pending", message := "Order placed and payment received"
                  location := some "Online", timestamp := some now, updatedBy := none }])
    ∧ ((verifyPaymentValidity env req).1 = false →
      verifyPayment env db userId req now
        = (db, .error ⟨400, "Invalid payment signature"⟩)) := by
  constructor
  · intro hvalid
    refine ⟨?_, ?_, rfl⟩
    · unfold verifyPayment
      rw [hfind]
      simp only [hvalid, if_true]
    · have hOrders : (verifyPayment env db userId req now).1.orders
          = (saveOrder db (verifiedOrderUpdate order (verifyPaymentValidity env req).2
              req.razorpay_order_id now)).orders := by
        unfold verifyPayment
        rw [hfind]
        simp only [hvalid, if_true]
        rw [createOrderNotification_orders, createPaymentNotification_orders,
            sendNewOrderNotifications_orders]
      have hid : (verifiedOrderUpdate order (verifyPaymentValidity env req).2
          req.razorpay_order_id now).id = req.orderId := by
        have := findOrderById_eq_some_id hfind
        simpa [verifiedOrderUpdate] using this
      unfold findOrderById
      rw [hOrders]
      unfold saveOrder
      simp only
      exact find_save_aux req.orderId _ hid db.orders
        (by unfold findOrderById at hfind; rw [hfind]; rfl)
  · intro hinvalid
    unfold verifyPayment
    rw [hfind]
    simp only [hinvalid, Bool.false_eq_true, if_false]

/-- C2 witness for the amended claim: instantiated on the already-paid
sample order with a valid signature (replay succeeds and swaps in the
re-verified order) and on an invalid signature (store unchanged). -/
theorem verifyPayment_reprocesses_paid_order_witness :
    ((verifyPayment sampleEnv { sampleDb with orders := [samplePaidOrder] } 7
        sampleVerifyReq 2000).2 = .ok ()
      ∧ findOrderById (verifyPayment sampleEnv
          { sampleDb with orders := [samplePaidOrder] } 7 sampleVerifyReq 2000).1 500
          = some (verifiedOrderUpdate samplePaidOrder "pp" "ro" 2000))
    ∧ verifyPayment sampleEnv { sampleDb with orders := [samplePaidOrder] } 7
        { sampleVerifyReq with razorpay_signature := some "wrong" } 2000
        = ({ sampleDb with orders := [samplePaidOrder] },
           .error ⟨400, "Invalid payment signature"⟩) := by
  constructor
  · have h := (verifyPayment_reprocesses_paid_order sampleEnv
      { sampleDb with orders := [samplePaidOrder] } 7 sampleVerifyReq 2000
      samplePaidOrder rfl).1 rfl
    exact ⟨h.1, h.2.1⟩
  · exact (verifyPayment_reprocesses_paid_order sampleEnv
      { sampleDb with orders := [samplePaidOrder] } 7
      { sampleVerifyReq with razorpay_signature := some "wrong" } 2000
      samplePaidOrder rfl).2 rfl

/-- C3: webhook handling rejects without processing when the webhook secret
or the signature header is missing, or when the supplied signature differs
from the HMAC-SHA256 of the serialized request body under the webhook
secret — in every such case the store is untouched; and redelivering a
`payment.captured` webhook for an order that is already paid leaves the
store untouched (idempotence). -/
theorem handleWebhook_guarded (env : Env) (db : DB) (sig : Option String)
    (body : WebhookBody) (now : Nat) :
    (env.webhookSecret = none ∨ sig = none →
        handleWebhook env db sig body now
          = (db, .error ⟨400, "Signature and secret are required for webhook"⟩))
    ∧ (∀ secret g, env.webhookSecret = some secret → sig = some g →
        g ≠ env.hmacSha256 secret (env.stringifyBody body) →
        handleWebhook env db sig body now
          = (db, .error ⟨400, "Invalid webhook signature"⟩))
    ∧ (∀ order : Order, body.event = "payment.captured" →
        findOrderById db body.notesOrderId = some order → order.isPaid = true →
        (handleWebhook env db sig body now).1 = db) := by
  refine ⟨?_, ?_, ?_⟩
  · intro h
    unfold handleWebhook
    rcases h with h | h
    · rw [h]
    · rw [h]
      cases env.webhookSecret <;> rfl
  · intro secret g hsec hsig hne
    unfold handleWebhook
    rw [hsec, hsig]
    simp [hne]
  · intro order hev hfind hpaid
    unfold handleWebhook
    cases hsec : env.webhookSecret with
    | none => cases sig <;> rfl
    | some secret =>
        cases hsig : sig with
        | none => rfl
        | some g =>
            by_cases hg : g != env.hmacSha256 secret (env.stringifyBody body)
            · simp [hg]
            · simp only [hg, if_false]
              rw [hev]
              simp only [beq_self_eq_true, if_true]
              rw [hfind]
              simp [hpaid]

/-- C3 witness: missing header, missing secret, wrong signature (store
unchanged, 400 each time), and a correctly signed `payment.captured`
redelivery for the already-paid sample order (store unchanged). -/
theorem handleWebhook_guarded_witness :
    handleWebhook sampleEnv { sampleDb with orders := [samplePaidOrder] } none
        { event := "payment.captured", paymentEntityId := "pp"
          paymentEntityOrderId := "ro", notesOrderId := 500 } 3000
      = ({ sampleDb with orders := [samplePaidOrder] },
         .error ⟨400, "Signature and secret are required for webhook"⟩)
    ∧ handleWebhook { sampleEnv with webhookSecret := none }
        { sampleDb with orders := [samplePaidOrder] } (some "x")
        { event := "payment.captured", paymentEntityId := "pp"
          paymentEntityOrderId := "ro", notesOrderId := 500 } 3000
      = ({ sampleDb with orders := [samplePaidOrder] },
         .error ⟨400, "Signature and secret are required for webhook"⟩)
    ∧ handleWebhook sampleEnv { sampleDb with orders := [samplePaidOrder] }
        (some "forged")
        { event := "payment.captured", paymentEntityId := "pp"
          paymentEntityOrderId := "ro", notesOrderId := 500 } 3000
      = ({ sampleDb with orders := [samplePaidOrder] },
         .error ⟨400, "Invalid webhook signature"⟩)
    ∧ (handleWebhook sampleEnv { sampleDb with orders := [samplePaidOrder] }
        (some "w#payment.captured/500")
        { event := "payment.captured", paymentEntityId := "pp"
          paymentEntityOrderId := "ro", notesOrderId := 500 } 3000).1
      = { sampleDb with orders := [samplePaidOrder] } := by
  refine ⟨?_, ?_, ?_, ?_⟩
  · exact (handleWebhook_guarded sampleEnv { sampleDb with orders := [samplePaidOrder] }
      none _ 3000).1 (Or.inr rfl)
  · exact (handleWebhook_guarded { sampleEnv with webhookSecret := none }
      { sampleDb with orders := [samplePaidOrder] } (some "x") _ 3000).1 (Or.inl rfl)
  · exact (handleWebhook_guarded sampleEnv { sampleDb with orders := [samplePaidOrder] }
      (some "forged") _ 3000).2.1 "w" "forged" rfl rfl (by decide)
  · exact (handleWebhook_guarded sampleEnv { sampleDb with orders := [samplePaidOrder] }
      (some "w#payment.captured/500") _ 3000).2.2 samplePaidOrder rfl rfl rfl

/-- C4: cancellation of an order whose `trackingStatus` is `delivered`,
`shipped` or `cancelled` is rejected with an error and leaves the store
entirely unchanged (no stock restored, no status or history change); for a
cancellable order (caller owning it or admin), cancellation restores
`countInStock` for every line item (primary product first, else matching
add-on), sets `trackingStatus` to `cancelled`, appends one tracking-history
entry and, if the order was paid, sets `paymentResult.status` to
`refund_pending`. -/
theorem cancelOrder_spec (env : Env) (db : DB) (user : User) (oid now : Nat)
    (order : Order) (hfind : findOrderById db oid = some order) :
    (order.trackingStatus = "delivered" ∨ order.trackingStatus = "shipped"
        ∨ order.trackingStatus = "cancelled" →
      (cancelOrder env db user oid now).1 = db
      ∧ ∃ e : ApiError, (cancelOrder env db user oid now).2 = .error e)
    ∧ ((order.user = user.id ∨ user.role = "admin") →
       order.trackingStatus ≠ "delivered" → order.trackingStatus ≠ "shipped" →
       order.trackingStatus ≠ "cancelled" → env.notifyFails = false →
      (cancelOrder env db user oid now).2 = .ok ()
      ∧ (cancelOrder env db user oid now).1.products
          = restoreStockForItems db.products order.orderItems
      ∧ findOrderById (cancelOrder env db user oid now).1 oid
          = some (cancelledOrderUpdate order user.id now)
      ∧ (cancelledOrderUpdate order user.id now).trackingStatus = "cancelled"
      ∧ (cancelledOrderUpdate order user.id now).trackingHistory.length
          = order.trackingHistory.length + 1
      ∧ (order.isPaid = true →
          ((cancelledOrderUpdate order user.id now).paymentResult.map (fun r => r.status))
            = some "refund_pending")) := by
  constructor
  · intro hterm
    unfold cancelOrder
    rw [hfind]
    by_cases hauth : (order.user != user.id && user.role != "admin") = true
    · simp [hauth]
    · have hA : (order.user != user.id && user.role != "admin") = false := by
        simpa using hauth
      have hT : (order.trackingStatus == "delivered" || order.trackingStatus == "shipped"
          || order.trackingStatus == "cancelled") = true := by
        rcases hterm with h | h | h <;> simp [h]
      simp [hA, hT]
  · intro hauth h1 h2 h3 hNf
    unfold cancelOrder
    rw [hfind]
    have hA : (order.user != user.id && user.role != "admin") = false := by
      rcases hauth with h | h <;> simp [h]
    have hT : (order.trackingStatus == "delivered" || order.trackingStatus == "shipped"
        || order.trackingStatus == "cancelled") = false := by
      simp [h1, h2, h3]
    simp only [hA, hT, Bool.false_eq_true, if_false]
    rw [createAll_noFail env hNf]
    simp only
    refine ⟨by trivial, by trivial, ?_, ?_, ?_, ?_⟩
    · have hid : (cancelledOrderUpdate order user.id now).id = oid := by
        have := findOrderById_eq_some_id hfind
        simpa [cancelledOrderUpdate] using this
      unfold findOrderById saveOrder
      simp only
      exact find_save_aux oid _ hid db.orders
        (by unfold findOrderById at hfind; rw [hfind]; rfl)
    · simp [cancelledOrderUpdate]
    · simp [cancelledOrderUpdate]
    · intro hpaid
      simp [cancelledOrderUpdate, hpaid]

/-- C4 witness: cancelling the delivered sample order is rejected with the
store unchanged; cancelling a pending order by its owner restores the two
reserved units (10 back to 12), marks the order cancelled with one history
entry, and, the order being paid, flags the refund as pending. -/
theorem cancelOrder_spec_witness :
    ((cancelOrder sampleEnv
        { sampleDb with orders := [{ samplePaidOrder with trackingStatus := "delivered" }] }
        sampleCust 500 3000).1
      = { sampleDb with orders := [{ samplePaidOrder with trackingStatus := "delivered" }] })
    ∧ (cancelOrder sampleEnv { sampleDb with orders := [samplePaidOrder] }
        sampleCust 500 3000).2 = .ok ()
    ∧ (cancelOrder sampleEnv { sampleDb with orders := [samplePaidOrder] }
        sampleCust 500 3000).1.products
        = restoreStockForItems sampleDb.products samplePaidOrder.orderItems
    ∧ findOrderById (cancelOrder sampleEnv { sampleDb with orders := [samplePaidOrder] }
        sampleCust 500 3000).1 500
        = some (cancelledOrderUpdate samplePaidOrder 7 3000)
    ∧ (cancelledOrderUpdate samplePaidOrder 7 3000).trackingStatus = "cancelled"
    ∧ (cancelledOrderUpdate samplePaidOrder 7 3000).trackingHistory.length = 1
    ∧ ((cancelledOrderUpdate samplePaidOrder 7 3000).paymentResult.map (fun r => r.status))
        = some "refund_pending" := by
  refine ⟨?_, ?_, ?_, ?_, ?_, ?_, ?_⟩
  · exact ((cancelOrder_spec sampleEnv
      { sampleDb with orders := [{ samplePaidOrder with trackingStatus := "delivered" }] }
      sampleCust 500 3000 { samplePaidOrder with trackingStatus := "delivered" } rfl).1
      (Or.inl rfl)).1
  · exact ((cancelOrder_spec sampleEnv { sampleDb with orders := [samplePaidOrder] }
      sampleCust 500 3000 samplePaidOrder rfl).2 (Or.inl rfl)
      (by decide) (by decide) (by decide) rfl).1
  · exact ((cancelOrder_spec sampleEnv { sampleDb with orders := [samplePaidOrder] }
      sampleCust 500 3000 samplePaidOrder rfl).2 (Or.inl rfl)
      (by decide) (by decide) (by decide) rfl).2.1
  · exact ((cancelOrder_spec sampleEnv { sampleDb with orders := [samplePaidOrder] }
      sampleCust 500 3000 samplePaidOrder rfl).2 (Or.inl rfl)
      (by decide) (by decide) (by decide) rfl).2.2.1
  · exact ((cancelOrder_spec sampleEnv { sampleDb with orders := [samplePaidOrder] }
      sampleCust 500 3000 samplePaidOrder rfl).2 (Or.inl rfl)
      (by decide) (by decide) (by decide) rfl).2.2.2.1
  · exact ((cancelOrder_spec sampleEnv { sampleDb with orders := [samplePaidOrder] }
      sampleCust 500 3000 samplePaidOrder rfl).2 (Or.inl rfl)
      (by decide) (by decide) (by decide) rfl).2.2.2.2.1
  · exact ((cancelOrder_spec sampleEnv { sampleDb with orders := [samplePaidOrder] }
      sampleCust 500 3000 samplePaidOrder rfl).2 (Or.inl rfl)
      (by decide) (by decide) (by decide) rfl).2.2.2.2.2 rfl

/-- A delivered COD sample order (delivered at t=10000), owned by the
sample customer. -/
def sampleDeliveredOrder : Order :=
  { newOrderRecord 500 7 sampleReqCOD 900 with
      trackingStatus := "delivered", isDelivered := true, deliveredAt := some 10000 }

/-- C6 counterexample: the claim fails on the code for cancellation and
return requests. With a notification store whose creates fail, cancelling
a pending order commits the business transaction (the order is saved as
cancelled and the stock is restored) and yet the caller gets a 500 error
response; likewise a return request is recorded as `Requested` and yet the
caller gets a 500 error. The creates in `cancelOrder` and `requestReturn`
are not wrapped in any try/catch. -/
theorem notification_failure_not_absorbed_cex :
    (cancelOrder sampleEnvNotifyFail { sampleDb with orders := [samplePaidOrder] }
        sampleCust 500 3000).2 = .error ⟨500, "Notification create failed"⟩
    ∧ ((cancelOrder sampleEnvNotifyFail { sampleDb with orders := [samplePaidOrder] }
        sampleCust 500 3000).1.orders.map (fun o => o.trackingStatus)) = ["cancelled"]
    ∧ (cancelOrder sampleEnvNotifyFail { sampleDb with orders := [samplePaidOrder] }
        sampleCust 500 3000).1.products
        = restoreStockForItems sampleDb.products samplePaidOrder.orderItems
    ∧ (requestReturn sampleEnvNotifyFail { sampleDb with orders := [sampleDeliveredOrder] }
        sampleCust 500 "defective" 20000).2 = .error ⟨500, "Notification create failed"⟩
    ∧ ((requestReturn sampleEnvNotifyFail { sampleDb with orders := [sampleDeliveredOrder] }
        sampleCust 500 "defective" 20000).1.orders.map (fun o => o.returnStatus))
        = ["Requested"] := by
  exact ⟨rfl, rfl, rfl, rfl, rfl⟩

/-- C6 amended: notification-failure absorption holds for order creation
and for client-confirmed payment verification — their outcomes do not
depend on whether notification creation fails, because the new-order
fan-out is wrapped in its own try/catch (and the notification-service
calls absorb internally) — but NOT for cancellation and return requests,
whose un-caught `Notification.create` calls turn an already-committed
business transaction into an error response (see the counterexample). -/
theorem notification_failure_absorption (env : Env) (db : DB) (userId : Nat)
    (req : CreateOrderReq) (oid now : Nat) :
    (checkStockAll db.products req.orderItems = .ok () → req.orderItems ≠ [] →
      (addOrderItems env db userId req oid now).2
        = .ok (newOrderRecord oid userId req now))
    ∧ (∀ (vreq : VerifyReq) (order : Order),
        findOrderById db vreq.orderId = some order →
        (verifyPaymentValidity env vreq).1 = true →
        (verifyPayment env db userId vreq now).2 = .ok ()) := by
  constructor
  · intro hok hne
    unfold addOrderItems
    have hE : req.orderItems.isEmpty = false := by
      simpa [List.isEmpty_iff] using hne
    simp [hE, hok]
  · intro vreq order hfind hvalid
    unfold verifyPayment
    rw [hfind]
    simp only [hvalid, if_true]

/-- C6 witness for the amended claim: with the failing notification store,
COD order creation still answers 201 with the created order, and payment
verification of the online sample order still answers success. -/
theorem notification_failure_absorption_witness :
    (addOrderItems sampleEnvNotifyFail sampleDb 7 sampleReqCOD 500 1000).2
        = .ok (newOrderRecord 500 7 sampleReqCOD 1000)
    ∧ (verifyPayment sampleEnvNotifyFail
        { sampleDb with orders := [newOrderRecord 500 7 sampleReqOnline 1000] } 7
        sampleVerifyReq 2000).2 = .ok () := by
  constructor
  · exact (notification_failure_absorption sampleEnvNotifyFail sampleDb 7
      sampleReqCOD 500 1000).1 (by rfl) (by decide)
  · exact (notification_failure_absorption sampleEnvNotifyFail
      { sampleDb with orders := [newOrderRecord 500 7 sampleReqOnline 1000] } 7
      sampleReqCOD 500 2000).2 sampleVerifyReq
      (newOrderRecord 500 7 sampleReqOnline 1000) rfl (by rfl)

/-- C7: a return request succeeds only for the owning user, only when the
order is `delivered`, only when `returnStatus` is `None`, and only within
7 floor-days of `deliveredAt` (inclusive boundary): exactly 7 days after
delivery the request succeeds, setting `returnStatus` to `Requested` and
recording the reason, while 8 days after delivery it is rejected with an
error and the store is unchanged. -/
theorem requestReturn_window (env : Env) (db : DB) (user : User) (oid : Nat)
    (reason : String) (now : Nat) (order : Order)
    (hfind : findOrderById db oid = some order) :
    ((requestReturn env db user oid reason now).2.isOk = true →
        order.user = user.id ∧ order.trackingStatus = "delivered"
        ∧ order.returnStatus = "None"
        ∧ ∀ d : Nat, order.deliveredAt = some d →
            ((now : Int) - (d : Int)).natAbs / (1000 * 60 * 60 * 24) ≤ 7)
    ∧ (∀ d : Nat, order.user = user.id → order.trackingStatus = "delivered" →
        order.returnStatus = "None" → env.notifyFails = false →
        order.deliveredAt = some d → now = d + 7 * (1000 * 60 * 60 * 24) →
        (requestReturn env db user oid reason now).2 = .ok ()
        ∧ findOrderById (requestReturn env db user oid reason now).1 oid
            = some { order with returnStatus := "Requested", returnReason := some reason })
    ∧ (∀ d : Nat, order.user = user.id → order.trackingStatus = "delivered" →
        order.deliveredAt = some d → now = d + 8 * (1000 * 60 * 60 * 24) →
        requestReturn env db user oid reason now
          = (db, .error ⟨400,
              "Return request can only be submitted within 7 days of delivery"⟩)) := by
  refine ⟨?_, ?_, ?_⟩
  · intro hok
    unfold requestReturn at hok
    rw [hfind] at hok
    by_cases hu : order.user = user.id
    swap
    · simp [hu, Except.isOk, Except.toBool] at hok
    by_cases hts : order.trackingStatus = "delivered"
    swap
    · simp [hu, hts, Except.isOk, Except.toBool] at hok
    refine ⟨hu, hts, ?_, ?_⟩
    · by_cases hrs : order.returnStatus = "None"
      · exact hrs
      · cases hdel : order.deliveredAt with
        | none => simp [hu, hts, hdel, hrs, Except.isOk, Except.toBool] at hok
        | some d =>
            by_cases hlate :
                ((now : Int) - (d : Int)).natAbs / (1000 * 60 * 60 * 24) > 7
            · simp [hu, hts, hdel, hlate, Except.isOk, Except.toBool] at hok
            · simp [hu, hts, hdel, hlate, hrs, Except.isOk, Except.toBool] at hok
    · intro d hdel
      by_cases hlate : ((now : Int) - (d : Int)).natAbs / (1000 * 60 * 60 * 24) > 7
      · simp [hu, hts, hdel, hlate, Except.isOk, Except.toBool] at hok
      · omega
  · intro d hu hts hrs hNf hdel hnow
    have hdays : ((now : Int) - (d : Int)).natAbs / (1000 * 60 * 60 * 24) = 7 := by
      omega
    constructor
    · unfold requestReturn
      rw [hfind]
      simp only [hu, hts, hdel, hrs, hdays]
      norm_num
      rw [createAll_noFail env hNf]
    · have hid : ({ order with returnStatus := "Requested", returnReason := some reason } : Order).id = oid := by
        simpa using findOrderById_eq_some_id hfind
      have hOrders : (requestReturn env db user oid reason now).1.orders
          = (saveOrder db { order with returnStatus := "Requested", returnReason := some reason }).orders := by
        unfold requestReturn
        rw [hfind]
        simp only [hu, hts, hdel, hrs, hdays]
        norm_num
        rw [createAll_noFail env hNf]
      unfold findOrderById
      rw [hOrders]
      unfold saveOrder
      simp only
      exact find_save_aux oid _ hid db.orders
        (by unfold findOrderById at hfind; rw [hfind]; rfl)
  · intro d hu hts hdel hnow
    have hdays : ((now : Int) - (d : Int)).natAbs / (1000 * 60 * 60 * 24) = 8 := by
      omega
    unfold requestReturn
    rw [hfind]
    simp [hu, hts, hdel, hdays]

/-- C7 witness: on the delivered sample order, a return request exactly 7
days (604800000 ms) after delivery succeeds and records the reason, while
one 8 days after delivery is rejected with the 7-day error and leaves the
store unchanged. -/
theorem requestReturn_window_witness :
    (requestReturn sampleEnv { sampleDb with orders := [sampleDeliveredOrder] }
        sampleCust 500 "defective" (10000 + 7 * (1000 * 60 * 60 * 24))).2 = .ok ()
    ∧ findOrderById (requestReturn sampleEnv
          { sampleDb with orders := [sampleDeliveredOrder] }
          sampleCust 500 "defective" (10000 + 7 * (1000 * 60 * 60 * 24))).1 500
        = some { sampleDeliveredOrder with returnStatus := "Requested", returnReason := some "defective" }
    ∧ requestReturn sampleEnv { sampleDb with orders := [sampleDeliveredOrder] }
        sampleCust 500 "defective" (10000 + 8 * (1000 * 60 * 60 * 24))
      = ({ sampleDb with orders := [sampleDeliveredOrder] },
         .error ⟨400, "Return request can only be submitted within 7 days of delivery"⟩) := by
  refine ⟨?_, ?_, ?_⟩
  · exact ((requestReturn_window sampleEnv
      { sampleDb with orders := [sampleDeliveredOrder] } sampleCust 500 "defective"
      (10000 + 7 * (1000 * 60 * 60 * 24)) sampleDeliveredOrder rfl).2.1 10000
      rfl rfl rfl rfl rfl rfl).1
  · exact ((requestReturn_window sampleEnv
      { sampleDb with orders := [sampleDeliveredOrder] } sampleCust 500 "defective"
      (10000 + 7 * (1000 * 60 * 60 * 24)) sampleDeliveredOrder rfl).2.1 10000
      rfl rfl rfl rfl rfl rfl).2
  · exact (requestReturn_window sampleEnv
      { sampleDb with orders := [sampleDeliveredOrder] } sampleCust 500 "defective"
      (10000 + 8 * (1000 * 60 * 60 * 24)) sampleDeliveredOrder rfl).2.2 10000
      rfl rfl rfl rfl

theorem applyUpdateData_empty (o : Order) : applyUpdateData emptyUpdateData o = o := by
  simp [applyUpdateData, emptyUpdateData]

/-- C8: bulk status update with target `delivered` sets `isDelivered`,
stamps `deliveredAt` and sets `trackingStatus` to `delivered` on every
matching order; `paid` sets `isPaid` and `paidAt` only; each of the five
non-terminal tracking states sets only `trackingStatus`; an unrecognized
status yields an empty update — the store is unchanged and the response is
a success reporting zero modifications, not an error. The response reports
the number of matched orders the update actually changed (2 for two ids of
not-yet-delivered orders, as in the witness). -/
theorem updateOrdersStatus_spec (db : DB) (orderIds : List Nat)
    (status : String) (now : Nat) (hne : orderIds ≠ []) :
    (status = "delivered" →
        (updateOrdersStatus db orderIds status now).1.orders
          = db.orders.map (fun o => if orderIds.contains o.id then
              { o with isDelivered := true, deliveredAt := some now, trackingStatus := "delivered" } else o)
        ∧ ((∀ o ∈ db.orders, orderIds.contains o.id → o.isDelivered = false) →
            (updateOrdersStatus db orderIds status now).2
              = .ok (db.orders.filter (fun o => orderIds.contains o.id)).length))
    ∧ (status = "paid" →
        (updateOrdersStatus db orderIds status now).1.orders
          = db.orders.map (fun o => if orderIds.contains o.id then
              { o with isPaid := true, paidAt := some now } else o))
    ∧ (status ∈ ["pending", "confirmed", "processing", "shipped", "out_for_delivery"] →
        (updateOrdersStatus db orderIds status now).1.orders
          = db.orders.map (fun o => if orderIds.contains o.id then
              { o with trackingStatus := status } else o))
    ∧ (status ∉ ["delivered", "paid", "pending", "confirmed", "processing",
          "shipped", "out_for_delivery"] →
        updateOrdersStatus db orderIds status now = (db, .ok 0)) := by
  have hE : orderIds.isEmpty = false := by simpa [List.isEmpty_iff] using hne
  refine ⟨?_, ?_, ?_, ?_⟩
  · intro hst
    subst hst
    constructor
    · unfold updateOrdersStatus
      simp only [hE, Bool.false_eq_true, if_false]
      show List.map _ db.orders = List.map _ db.orders
      refine List.map_congr_left ?_
      intro o ho
      by_cases hc : orderIds.contains o.id
      · simp [hc, statusUpdateData, emptyUpdateData, applyUpdateData]
      · have hc3 : o.id ∉ orderIds := by simpa using hc
        simp [hc3]
    · intro hall
      unfold updateOrdersStatus
      simp only [hE, Bool.false_eq_true, if_false]
      have hfeq : db.orders.filter (fun o => orderIds.contains o.id
            && applyUpdateData (statusUpdateData "delivered" now) o != o)
          = db.orders.filter (fun o => orderIds.contains o.id) := by
        refine List.filter_congr ?_
        intro o ho
        by_cases hc : orderIds.contains o.id
        · have hchanged : applyUpdateData (statusUpdateData "delivered" now) o ≠ o := by
            intro heq
            have hD : o.isDelivered = true := by
              rw [← heq]
              simp [statusUpdateData, emptyUpdateData, applyUpdateData]
            rw [hall o ho hc] at hD
            exact Bool.false_ne_true hD
          simp [hc, hchanged]
        · have hc3 : o.id ∉ orderIds := by simpa using hc
          simp [hc3]
      rw [hfeq]
  · intro hst
    subst hst
    unfold updateOrdersStatus
    simp only [hE, Bool.false_eq_true, if_false]
    show List.map _ db.orders = List.map _ db.orders
    refine List.map_congr_left ?_
    intro o ho
    by_cases hc : orderIds.contains o.id
    · simp [hc, statusUpdateData, emptyUpdateData, applyUpdateData]
    · have hc3 : o.id ∉ orderIds := by simpa using hc
      simp [hc3]
  · intro hst
    unfold updateOrdersStatus
    simp only [hE, Bool.false_eq_true, if_false]
    show List.map _ db.orders = List.map _ db.orders
    refine List.map_congr_left ?_
    intro o ho
    by_cases hc : orderIds.contains o.id
    · fin_cases hst <;>
        simp [hc, statusUpdateData, emptyUpdateData, applyUpdateData]
    · have hc3 : o.id ∉ orderIds := by simpa using hc
      simp [hc3]
  · intro hst
    simp only [List.mem_cons, List.mem_singleton, not_or] at hst
    obtain ⟨n1, n2, n3, n4, n5, n6, n7, -⟩ := hst
    have hu : statusUpdateData status now = emptyUpdateData := by
      simp [statusUpdateData, n1, n2, n3, n4, n5, n6, n7]
    unfold updateOrdersStatus
    simp only [hE, Bool.false_eq_true, if_false, hu]
    have hmap : db.orders.map (fun o => if orderIds.contains o.id
        then applyUpdateData emptyUpdateData o else o) = db.orders := by
      refine (List.map_congr_left ?_).trans (List.map_id _)
      intro o ho
      simp [applyUpdateData_empty]
    have hcount : db.orders.filter (fun o => orderIds.contains o.id
        && applyUpdateData emptyUpdateData o != o) = [] := by
      refine List.filter_eq_nil_iff.mpr ?_
      intro o ho
      simp [applyUpdateData_empty]
    rw [hmap, hcount]
    rfl

/-- Two fresh COD orders (ids 601 and 602) for the bulk-update scenario. -/
def sampleBulkDb : DB :=
  { sampleDb with orders := [newOrderRecord 601 7 sampleReqCOD 900,
      newOrderRecord 602 7 sampleReqCOD 901] }

/-- C8 witness: over the two not-yet-delivered orders 601 and 602, status
`delivered` stamps all three delivery fields on both and reports
`modifiedCount = 2`; `paid` stamps the two payment fields; `shipped` only
moves `trackingStatus`; the unknown status `bogus` returns success with
zero modifications and an unchanged store. -/
theorem updateOrdersStatus_spec_witness :
    (updateOrdersStatus sampleBulkDb [601, 602] "delivered" 7000).1.orders
      = sampleBulkDb.orders.map (fun o => if [601, 602].contains o.id then
          { o with isDelivered := true, deliveredAt := some 7000, trackingStatus := "delivered" } else o)
    ∧ (updateOrdersStatus sampleBulkDb [601, 602] "delivered" 7000).2 = .ok 2
    ∧ (updateOrdersStatus sampleBulkDb [601, 602] "paid" 7000).1.orders
      = sampleBulkDb.orders.map (fun o => if [601, 602].contains o.id then
          { o with isPaid := true, paidAt := some 7000 } else o)
    ∧ (updateOrdersStatus sampleBulkDb [601] "shipped" 7000).1.orders
      = sampleBulkDb.orders.map (fun o => if [601].contains o.id then
          { o with trackingStatus := "shipped" } else o)
    ∧ updateOrdersStatus sampleBulkDb [601, 602] "bogus" 7000 = (sampleBulkDb, .ok 0) := by
  refine ⟨?_, ?_, ?_, ?_, ?_⟩
  · exact ((updateOrdersStatus_spec sampleBulkDb [601, 602] "delivered" 7000
      (by decide)).1 rfl).1
  · have h := ((updateOrdersStatus_spec sampleBulkDb [601, 602] "delivered" 7000
      (by decide)).1 rfl).2 (by decide)
    rw [h]
    rfl
  · exact (updateOrdersStatus_spec sampleBulkDb [601, 602] "paid" 7000
      (by decide)).2.1 rfl
  · exact (updateOrdersStatus_spec sampleBulkDb [601] "shipped" 7000
      (by decide)).2.2.1 (by decide)
  · exact (updateOrdersStatus_spec sampleBulkDb [601, 602] "bogus" 7000
      (by decide)).2.2.2 (by decide)

/-- C9: for every existing order and any authenticated caller, abandoning
restores `countInStock` for each line item and permanently deletes the
order document; the caller plays no role (the result is the same for every
user) and no field of the order — owner, `isPaid`, `trackingStatus` — is
consulted, so any authenticated user can abandon any order, paid or
already cancelled (a cancelled one having its stock restored a second
time). -/
theorem abandonOrder_unconditional (db : DB) (u1 u2 : User) (oid : Nat)
    (order : Order) (hfind : findOrderById db oid = some order) :
    abandonOrder db u1 oid = abandonOrder db u2 oid
    ∧ (abandonOrder db u1 oid).1.products
        = restoreStockForItems db.products order.orderItems
    ∧ (abandonOrder db u1 oid).1.orders = db.orders.filter (fun o => !(o.id == oid))
    ∧ (abandonOrder db u1 oid).2
        = .ok "Order record permanently deleted and stock restored" := by
  unfold abandonOrder
  rw [hfind]
  exact ⟨rfl, rfl, rfl, rfl⟩

/-- A paid and already-cancelled order, which `cancelOrder` would refuse to
touch. -/
def sampleCancelledPaidOrder : Order :=
  { samplePaidOrder with trackingStatus := "cancelled" }

/-- C9 witness: the plain customer abandons the paid, already-cancelled
order with the same effect an admin would have — the order is gone and the
two reserved units are restored (10 back to 12) even though cancellation
had already restored them once. -/
theorem abandonOrder_unconditional_witness :
    abandonOrder { sampleDb with orders := [sampleCancelledPaidOrder] } sampleCust 500
      = abandonOrder { sampleDb with orders := [sampleCancelledPaidOrder] } sampleAdmin 500
    ∧ (abandonOrder { sampleDb with orders := [sampleCancelledPaidOrder] } sampleCust 500).1.products
        = restoreStockForItems sampleDb.products sampleCancelledPaidOrder.orderItems
    ∧ (abandonOrder { sampleDb with orders := [sampleCancelledPaidOrder] } sampleCust 500).1.orders = []
    ∧ (abandonOrder { sampleDb with orders := [sampleCancelledPaidOrder] } sampleCust 500).2
        = .ok "Order record permanently deleted and stock restored" := by
  have h := abandonOrder_unconditional { sampleDb with orders := [sampleCancelledPaidOrder] }
    sampleCust sampleAdmin 500 sampleCancelledPaidOrder rfl
  refine ⟨h.1, h.2.1, ?_, h.2.2.2⟩
  rw [h.2.2.1]
  rfl

/-- C10: list-my-orders returns exactly the requesting user's orders whose
`paymentMethod` is `COD` or whose `isPaid` flag is true — an unpaid
online-payment order of the user is never included — sorted newest-first
by creation time. -/
theorem getMyOrders_spec (db : DB) (userId : Nat) :
    (∀ o : Order, o ∈ getMyOrders db userId ↔
        o ∈ db.orders ∧ o.user = userId ∧ (o.paymentMethod = "COD" ∨ o.isPaid = true))
    ∧ List.Pairwise (fun a b => b.createdAt ≤ a.createdAt) (getMyOrders db userId) := by
  constructor
  · intro o
    unfold getMyOrders
    rw [(List.perm_insertionSort _ _).mem_iff]
    simp [List.mem_filter, and_assoc]
  · unfold getMyOrders
    haveI ht : IsTotal Order (fun a b => b.createdAt ≤ a.createdAt) :=
      ⟨fun a b => le_total b.createdAt a.createdAt⟩
    haveI htr : IsTrans Order (fun a b => b.createdAt ≤ a.createdAt) :=
      ⟨fun a b c hab hbc => le_trans hbc hab⟩
    exact List.sorted_insertionSort _ _

/-- Four orders: 701 unpaid-online (owned), 702 paid-online (owned),
703 COD (owned), 704 COD owned by someone else. -/
def sampleMyOrdersDb : DB :=
  { sampleDb with orders := [newOrderRecord 701 7 sampleReqOnline 10,
      { newOrderRecord 702 7 sampleReqOnline 20 with isPaid := true },
      newOrderRecord 703 7 sampleReqCOD 30,
      newOrderRecord 704 8 sampleReqCOD 40] }

/-- C10 witness: user 7's listing contains the COD order and the paid
online order, newest first; the unpaid online order 701 is excluded and
the foreign order 704 is excluded. -/
theorem getMyOrders_spec_witness :
    (newOrderRecord 701 7 sampleReqOnline 10 ∈ getMyOrders sampleMyOrdersDb 7 → False)
    ∧ (newOrderRecord 704 8 sampleReqCOD 40 ∈ getMyOrders sampleMyOrdersDb 7 → False)
    ∧ newOrderRecord 703 7 sampleReqCOD 30 ∈ getMyOrders sampleMyOrdersDb 7
    ∧ { newOrderRecord 702 7 sampleReqOnline 20 with isPaid := true } ∈ getMyOrders sampleMyOrdersDb 7
    ∧ List.Pairwise (fun a b => b.createdAt ≤ a.createdAt) (getMyOrders sampleMyOrdersDb 7) := by
  refine ⟨?_, ?_, ?_, ?_, (getMyOrders_spec sampleMyOrdersDb 7).2⟩
  · intro h
    have hm := ((getMyOrders_spec sampleMyOrdersDb 7).1 _).mp h
    rcases hm.2.2 with h1 | h1
    · exact absurd h1 (by decide)
    · exact absurd h1 (by decide)
  · intro h
    have hm := ((getMyOrders_spec sampleMyOrdersDb 7).1 _).mp h
    exact absurd hm.2.1 (by decide)
  · exact ((getMyOrders_spec sampleMyOrdersDb 7).1 _).mpr ⟨by decide, rfl, Or.inl rfl⟩
  · exact ((getMyOrders_spec sampleMyOrdersDb 7).1 _).mpr ⟨by decide, rfl, Or.inr rfl⟩

end Shop
